import Mathlib

/-!
Verification of the semantic2sql contract-validation core.

Shallow embedding of `src/semantic2sql/contracts.py`, `models.py`,
`sql_generator.py` and `database.py`.  Python strings are Lean `String`s
(lists of characters); the external text-generation oracle is an explicit
function argument; instance state (`current_dialect`, `_current_query`,
`contract_result`, `connection`) is passed explicitly.
-/

namespace Semantic2SQL

/-- the ASCII whitespace characters removed by Python `str.strip()` -/
def isPySpace (c : Char) : Bool :=
  c = ' ' || c = '\t' || c = '\n' || c = '\r' || c.toNat = 11 || c.toNat = 12

/-- Python `str.strip()` on the character list: drop whitespace from both ends -/
def stripList (l : List Char) : List Char :=
  ((l.dropWhile isPySpace).reverse.dropWhile isPySpace).reverse

/-- Python `str.strip()` -/
def pyStrip (s : String) : String := ⟨stripList s.data⟩

/-- Python `str.upper()` restricted to ASCII letters -/
def upperChar (c : Char) : Char :=
  if 'a' ≤ c ∧ c ≤ 'z' then Char.ofNat (c.toNat - 32) else c

/-- Python `str.upper()` -/
def pyUpper (s : String) : String := ⟨s.data.map upperChar⟩

/-- Python `s.count(c)` for a single character `c` -/
def countChar (s : String) (c : Char) : Nat := s.data.count c

/-- check that `p` is a prefix of `l` -/
def isPrefixList : List Char → List Char → Bool
  | [], _ => true
  | _ :: _, [] => false
  | p :: ps, c :: cs => p = c && isPrefixList ps cs

/-- check that `pat` occurs as a contiguous substring of `s` -/
def containsSubList (pat : List Char) : List Char → Bool
  | [] => pat.isEmpty
  | c :: rest => isPrefixList pat (c :: rest) || containsSubList pat rest

/-- Python `pat in hay` (substring containment) -/
def pyContains (hay pat : String) : Bool := containsSubList pat.data hay.data

/-- Python `s.startswith(p)` -/
def pyStartsWith (s p : String) : Bool := isPrefixList p.data s.data

/-- the `SQLDialect` enum of `models.py` -/
inductive SQLDialect where
  | sqlite
  | mysql
  | postgresql
  | generic
deriving DecidableEq, Repr

/-- the string value of each `SQLDialect` member -/
def SQLDialect.value : SQLDialect → String
  | .sqlite => "sqlite"
  | .mysql => "mysql"
  | .postgresql => "postgresql"
  | .generic => "generic"

/-- the `QueryInput` model of `models.py`, with its field defaults -/
structure QueryInput where
  query : String
  table_schema : String := ""
  sql_dialect : SQLDialect := .generic
deriving DecidableEq, Repr

/-- the `SQLOutput` model of `models.py`, with its field defaults -/
structure SQLOutput where
  sql : String
  is_valid : Bool := true
  validation_notes : String := ""
  dialect_used : SQLDialect := .generic
deriving DecidableEq, Repr

/-- outcome of one call to the secondary validation oracle
(`Expression()(validation_prompt)` in `contracts.py`): the call may raise,
return a non-string value, or return a string -/
inductive OracleResponse where
  | raises
  | nonString
  | strResp (s : String)
deriving DecidableEq, Repr

/-- the `validation_prompt` f-string built in
`SemanticSQLGenerator._llm_validate_dialect` -/
def buildValidationPrompt (sql : String) (dialect : SQLDialect) (original_query : String) : String :=
  let dialect_name := pyUpper dialect.value
  let context := if original_query ≠ "" then "\nOriginal request: " ++ original_query else ""
  "\nIs this SQL query correct for " ++ dialect_name ++ "?" ++ context ++
    "\n\nSQL: " ++ sql ++ "\nDialect: " ++ dialect_name ++
    "\n\nAnswer only \"YES\" if the SQL uses proper " ++ dialect_name ++
    " syntax, or \"NO\" if it uses syntax from other databases.\n"

/-- `SemanticSQLGenerator._llm_validate_dialect`: ask the oracle whether the
SQL is correct for the dialect; a string answer counts as valid iff it starts
with `YES` after stripping and upper-casing; a non-string answer or an
exception yields `true` -/
def llm_validate_dialect (oracle : String → OracleResponse) (sql : String)
    (dialect : SQLDialect) (original_query : String) : Bool :=
  match oracle (buildValidationPrompt sql dialect original_query) with
  | .strResp s => pyStartsWith (pyUpper (pyStrip s)) "YES"
  | .nonString => true
  | .raises => true

/-- `SemanticSQLGenerator._check_basic_dialect_issues`: fast per-dialect
forbidden-token scan over the upper-cased SQL; `true` means an issue was found -/
def check_basic_dialect_issues (sql_upper : String) (dialect : SQLDialect) : Bool :=
  if dialect = SQLDialect.mysql then
    if pyContains sql_upper " TOP " then true
    else if pyContains sql_upper "AUTOINCREMENT" then true
    else false
  else if dialect = SQLDialect.postgresql then
    if pyContains sql_upper " TOP " then true
    else if pyContains sql_upper "AUTO_INCREMENT" then true
    else false
  else if dialect = SQLDialect.sqlite then
    if pyContains sql_upper " FULL OUTER JOIN " then true
    else if pyContains sql_upper " TOP " then true
    else if pyContains sql_upper " ILIKE " then true
    else if pyContains sql_upper "INTERVAL" then true
    else if pyContains sql_upper " SERIAL " then true
    else if pyContains sql_upper "STRFTIME" && decide (dialect ≠ SQLDialect.sqlite) then true
    else false
  else false

/-- the dialect validation method of `SemanticSQLGenerator` (named
`_validate_dialect_` plus `syntax` in the source): upper-case the SQL, run
the fast forbidden-token scan, then (only if it passes) the oracle check -/
def validate_dialect (oracle : String → OracleResponse) (sql : String)
    (dialect : SQLDialect) (original_query : String) : Bool :=
  let sql_upper := pyUpper sql
  if check_basic_dialect_issues sql_upper dialect then false
  else llm_validate_dialect oracle sql dialect original_query

/-- `SemanticSQLGenerator.post`: strip the candidate SQL, reject empty text,
unbalanced parentheses, odd single-quote or double-quote counts, then run the
dialect validation -/
def post (oracle : String → OracleResponse) (current_dialect : SQLDialect)
    (current_query : String) (result : SQLOutput) : Bool :=
  let sql := pyStrip result.sql
  if sql = "" then false
  else if countChar sql '(' ≠ countChar sql ')' then false
  else if countChar sql '\'' % 2 ≠ 0 then false
  else if countChar sql '"' % 2 ≠ 0 then false
  else validate_dialect oracle sql current_dialect current_query

/-- `SemanticSQLGenerator.pre`: the query must be non-empty after stripping -/
def pre (input : QueryInput) : Bool :=
  decide ((pyStrip input.query).length > 0)

/-- `SemanticSQLGenerator.forward`: return the contract result when the
machinery produced one, else the `SELECT 1;` fallback built from the
`SQLOutput` field defaults -/
def forward (input : QueryInput) (contract_result : Option SQLOutput) : SQLOutput :=
  match contract_result with
  | none => { sql := "SELECT 1;" }
  | some r => r

/-- `SQLGeneratorService.generate_sql`: build a `QueryInput` (dialect left at
its default) and hand it to the contract generator, returning the `sql` field -/
def generate_sql (generator : QueryInput → SQLOutput)
    (natural_query : String) (table_schema : String) : String :=
  (generator { query := natural_query, table_schema := table_schema }).sql

/-- `SQLGeneratorService.generate_sql_for_table`: format the schema text from
the table name and column info, then delegate to `generate_sql` -/
def generate_sql_for_table (generator : QueryInput → SQLOutput)
    (natural_query : String) (table_name : String) (columns_info : String) : String :=
  let table_schema := "Table: " ++ table_name ++ "\n   Columns: " ++ columns_info
  generate_sql generator natural_query table_schema

/-- a SQLite cell value as seen through the row interface of `database.py` -/
inductive SqlValue where
  | intVal (n : Int)
  | textVal (s : String)
  | nullVal
deriving DecidableEq, Repr

/-- one row of `PRAGMA table_info`: the fields of a column record that
`database.py` reads (name `col[1]`, type `col[2]`, notnull `col[3]`, pk `col[5]`) -/
structure ColumnInfo where
  name : String
  declType : String
  notnull : Bool
  pk : Bool
deriving DecidableEq, Repr

/-- the backing SQLite store, seen through the three queries `database.py`
issues: the `sqlite_master` table listing, `PRAGMA table_info`, and plain
statement execution returning column names plus rows -/
structure Store where
  tableNames : List String
  tableInfo : String → List ColumnInfo
  runQuery : String → Except String (List String × List (List SqlValue))

/-- errors raised by `SQLInterface`: `RuntimeError("Database not connected")`,
`ValueError("Table (name) not found")`, and wrapped execution errors -/
inductive DBError where
  | notConnected
  | tableNotFound (table_name : String)
  | execError (msg : String)
deriving DecidableEq, Repr

/-- the `SQLInterface` object state: the stored path and the optional live
connection (`None` before `connect()` and after `disconnect()`) -/
structure SQLInterface where
  database_path : String
  connection : Option Store

/-- `SQLInterface.__init__`: store the path, leave the connection unset -/
def SQLInterface.init (database_path : String) : SQLInterface :=
  { database_path := database_path, connection := none }

/-- `SQLInterface.connect`: attach a live connection to the backing store -/
def SQLInterface.connect (db : SQLInterface) (store : Store) : SQLInterface :=
  { db with connection := some store }

/-- `SQLInterface.disconnect`: close and clear the connection -/
def SQLInterface.disconnect (db : SQLInterface) : SQLInterface :=
  { db with connection := none }

/-- `SQLInterface.get_table_names`: list the tables of the connected store -/
def get_table_names (db : SQLInterface) : Except DBError (List String) :=
  match db.connection with
  | none => .error .notConnected
  | some store => .ok store.tableNames

/-- render one column as `name (type[, PRIMARY KEY][, NOT NULL])`, as in the
formatting loops of `get_table_schema` and `get_columns_info` -/
def formatColumn (col : ColumnInfo) : String :=
  let d := col.name ++ " (" ++ col.declType
  let d := if col.pk then d ++ ", PRIMARY KEY" else d
  let d := if col.notnull && !col.pk then d ++ ", NOT NULL" else d
  d ++ ")"

/-- `SQLInterface.get_table_schema`: require a connection, read the column
metadata, fail when no columns come back, else render the schema text -/
def get_table_schema (db : SQLInterface) (table_name : String) : Except DBError String :=
  match db.connection with
  | none => .error .notConnected
  | some store =>
    match store.tableInfo table_name with
    | [] => .error (.tableNotFound table_name)
    | columns =>
      .ok ("Table: " ++ table_name ++ "\n   " ++
        ("Columns: " ++ String.intercalate ", " (columns.map formatColumn)))

/-- `SQLInterface.get_columns_info`: like `get_table_schema` but returning
only the comma-joined column descriptions -/
def get_columns_info (db : SQLInterface) (table_name : String) : Except DBError String :=
  match db.connection with
  | none => .error .notConnected
  | some store =>
    match store.tableInfo table_name with
    | [] => .error (.tableNotFound table_name)
    | columns => .ok (String.intercalate ", " (columns.map formatColumn))

/-- `SQLInterface.execute_query`: require a connection, run the statement, and
shape each row into a field-name/value association list in column order -/
def execute_query (db : SQLInterface) (sql_query : String) :
    Except DBError (List (List (String × SqlValue))) :=
  match db.connection with
  | none => .error .notConnected
  | some store =>
    match store.runQuery sql_query with
    | .error msg => .error (.execError msg)
    | .ok (columns, rows) => .ok (rows.map fun row => columns.zip row)

/-- dropping a prefix of characters satisfying `p` preserves the count of any
character not satisfying `p` -/
theorem count_dropWhile_of_neg (p : Char → Bool) (c : Char) (hc : p c = false) :
    ∀ l : List Char, (l.dropWhile p).count c = l.count c := by
  intro l
  induction l with
  | nil => rfl
  | cons x xs ih =>
    by_cases hx : p x = true
    · rw [List.dropWhile_cons_of_pos hx, ih]
      have hxc : x ≠ c := by
        intro h
        rw [h, hc] at hx
        exact absurd hx (by decide)
      simp [List.count_cons, hxc]
    · rw [List.dropWhile_cons_of_neg hx]

/-- stripping whitespace from both ends preserves the count of any
non-whitespace character -/
theorem count_stripList (c : Char) (hc : isPySpace c = false) (l : List Char) :
    (stripList l).count c = l.count c := by
  unfold stripList
  rw [List.count_reverse, count_dropWhile_of_neg _ _ hc, List.count_reverse,
    count_dropWhile_of_neg _ _ hc]

/-- `countChar` is unchanged by `pyStrip` for non-whitespace characters -/
theorem countChar_pyStrip (s : String) (c : Char) (hc : isPySpace c = false) :
    countChar (pyStrip s) c = countChar s c :=
  count_stripList c hc s.data

/-- C5: a candidate whose SQL has a `(` count different from its `)` count, an
odd number of single quotes, or an odd number of double quotes is rejected by
`post` for every dialect, query context and oracle. -/
theorem post_rejects_unbalanced (oracle : String → OracleResponse)
    (d : SQLDialect) (q : String) (r : SQLOutput)
    (h : countChar r.sql '(' ≠ countChar r.sql ')' ∨
         countChar r.sql '\'' % 2 ≠ 0 ∨ countChar r.sql '"' % 2 ≠ 0) :
    post oracle d q r = false := by
  have h1 : countChar (pyStrip r.sql) '(' = countChar r.sql '(' :=
    countChar_pyStrip _ _ (by decide)
  have h2 : countChar (pyStrip r.sql) ')' = countChar r.sql ')' :=
    countChar_pyStrip _ _ (by decide)
  have h3 : countChar (pyStrip r.sql) '\'' = countChar r.sql '\'' :=
    countChar_pyStrip _ _ (by decide)
  have h4 : countChar (pyStrip r.sql) '"' = countChar r.sql '"' :=
    countChar_pyStrip _ _ (by decide)
  simp only [post]
  split
  · rfl
  · split
    · rfl
    · split
      · rfl
      · split
        · rfl
        · rename_i hpar hsq hdq
          exfalso
          rcases h with h | h | h
          · exact hpar (by rw [h1, h2]; exact h)
          · exact hsq (by rw [h3]; exact h)
          · exact hdq (by rw [h4]; exact h)

/-- C5 witness: `post` rejects the concrete unbalanced candidate `SELECT (1`. -/
theorem post_rejects_unbalanced_witness :
    (countChar "SELECT (1" '(' ≠ countChar "SELECT (1" ')' ∨
     countChar "SELECT (1" '\'' % 2 ≠ 0 ∨ countChar "SELECT (1" '"' % 2 ≠ 0) ∧
    post (fun _ => OracleResponse.strResp "YES") SQLDialect.generic ""
      { sql := "SELECT (1" } = false :=
  ⟨Or.inl (by decide),
   post_rejects_unbalanced _ _ _ _ (Or.inl (by decide))⟩

/-- C4: when the secondary validation oracle raises an exception or returns a
non-string value, `llm_validate_dialect` returns `true` (fails open), for
every SQL string, dialect and original query. -/
theorem llm_validate_dialect_fails_open (oracle : String → OracleResponse)
    (sql : String) (d : SQLDialect) (q : String)
    (h : oracle (buildValidationPrompt sql d q) = OracleResponse.raises ∨
         oracle (buildValidationPrompt sql d q) = OracleResponse.nonString) :
    llm_validate_dialect oracle sql d q = true := by
  unfold llm_validate_dialect
  rcases h with h | h <;> rw [h]

/-- C4 witness: an always-raising oracle yields a valid verdict. -/
theorem llm_validate_dialect_fails_open_witness :
    ((fun _ : String => OracleResponse.raises)
        (buildValidationPrompt "SELECT 1" SQLDialect.sqlite "count rows") =
        OracleResponse.raises ∨
     (fun _ : String => OracleResponse.raises)
        (buildValidationPrompt "SELECT 1" SQLDialect.sqlite "count rows") =
        OracleResponse.nonString) ∧
    llm_validate_dialect (fun _ => OracleResponse.raises)
      "SELECT 1" SQLDialect.sqlite "count rows" = true :=
  ⟨Or.inl rfl,
   llm_validate_dialect_fails_open _ _ _ _ (Or.inl rfl)⟩

/-- C7: with no contract result, `forward` returns exactly the `SELECT 1;`
sentinel with every other field at its model default; with a contract result
it returns that result unchanged, so the sentinel is the only output not
produced by the oracle machinery. -/
theorem forward_fallback_only (input : QueryInput) :
    forward input none =
      { sql := "SELECT 1;", is_valid := true, validation_notes := "",
        dialect_used := SQLDialect.generic } ∧
    ∀ r : SQLOutput, forward input (some r) = r :=
  ⟨rfl, fun _ => rfl⟩

/-- C8: `generate_sql_for_table` delegates exactly the schema text
`Table: ` name, newline, three spaces, `Columns: ` info; on the orders example
this text equals the expected literal. -/
theorem generate_sql_for_table_format (g : QueryInput → SQLOutput)
    (q t c : String) :
    generate_sql_for_table g q t c =
      generate_sql g q ("Table: " ++ t ++ "\n   Columns: " ++ c) ∧
    ("Table: " ++ "orders" ++ "\n   Columns: " ++ "id (INT), total (DECIMAL)") =
      "Table: orders\n   Columns: id (INT), total (DECIMAL)" :=
  ⟨rfl, rfl⟩

/-- C6: the precondition holds exactly when the query is non-empty after
stripping; in particular every whitespace-only query fails it. -/
theorem pre_iff_nonempty (input : QueryInput) :
    (pre input = true ↔ pyStrip input.query ≠ "") ∧
    ((∀ c ∈ input.query.data, isPySpace c = true) → pre input = false) := by
  have hlen : pre input = true ↔ 0 < (pyStrip input.query).data.length := by
    unfold pre
    rw [decide_eq_true_iff]
    exact Iff.rfl
  constructor
  · rw [hlen, List.length_pos]
    constructor
    · intro h hempty
      exact h (by rw [hempty])
    · intro h hnil
      exact h (String.ext hnil)
  · intro hall
    have hnil : input.query.data.dropWhile isPySpace = [] :=
      List.dropWhile_eq_nil_iff.mpr (by intro x hx; simpa using hall x hx)
    have hstrip : pyStrip input.query = "" := by
      apply String.ext
      show stripList input.query.data = []
      unfold stripList
      rw [hnil]
      rfl
    unfold pre
    rw [hstrip]
    rfl

/-- C6 witness: a whitespace-only query fails the precondition. -/
theorem pre_iff_nonempty_witness : pre { query := "   " } = false :=
  (pre_iff_nonempty { query := "   " }).2 (by decide)

/-- C1 counterexample: a candidate that does not start with `SELECT` after
trimming and upper-casing is still accepted by `post` (dialect GENERIC,
oracle answering YES), so the claimed statement-start rejection is absent. -/
theorem post_no_select_check_counterexample :
    pyStartsWith (pyUpper (pyStrip "DROP TABLE users")) "SELECT" = false ∧
    post (fun _ => OracleResponse.strResp "YES") SQLDialect.generic ""
      { sql := "DROP TABLE users" } = true :=
  ⟨rfl, rfl⟩

/-- C1 (amended): `post` performs no statement-start check — for every
dialect, the statement `DROP TABLE users`, which does not begin with
`SELECT`, passes `post` once the implemented checks pass and the deep
oracle approves. -/
theorem post_accepts_non_select (d : SQLDialect) :
    pyStartsWith (pyUpper (pyStrip "DROP TABLE users")) "SELECT" = false ∧
    post (fun _ => OracleResponse.strResp "YES") d ""
      { sql := "DROP TABLE users" } = true := by
  refine ⟨rfl, ?_⟩
  cases d <;> rfl

/-- C2 counterexample: under MYSQL, SQL containing the forbidden token `TOP`
without surrounding spaces passes validation when the oracle approves, so
plain case-insensitive containment of a token does not force rejection. -/
theorem forbidden_token_scan_counterexample :
    pyContains (pyUpper "SELECT * FROM t LIMIT TOP") "TOP" = true ∧
    validate_dialect (fun _ => OracleResponse.strResp "YES")
      "SELECT * FROM t LIMIT TOP" SQLDialect.mysql "" = true :=
  ⟨rfl, rfl⟩

/-- C2 (amended): validation rejects, for every oracle, SQL whose upper-cased
text contains the dialect's forbidden patterns exactly as the code matches
them: space-delimited ` TOP `, ` ILIKE `, ` SERIAL `, ` FULL OUTER JOIN `,
and bare substrings `AUTOINCREMENT` (MYSQL), `AUTO_INCREMENT` (POSTGRESQL),
`INTERVAL` (SQLITE). -/
theorem validate_rejects_forbidden_patterns (oracle : String → OracleResponse)
    (s q : String) (d : SQLDialect)
    (h :
      (d = SQLDialect.mysql ∧
        (pyContains (pyUpper s) " TOP " = true ∨
         pyContains (pyUpper s) "AUTOINCREMENT" = true)) ∨
      (d = SQLDialect.postgresql ∧
        (pyContains (pyUpper s) " TOP " = true ∨
         pyContains (pyUpper s) "AUTO_INCREMENT" = true)) ∨
      (d = SQLDialect.sqlite ∧
        (pyContains (pyUpper s) " FULL OUTER JOIN " = true ∨
         pyContains (pyUpper s) " TOP " = true ∨
         pyContains (pyUpper s) " ILIKE " = true ∨
         pyContains (pyUpper s) "INTERVAL" = true ∨
         pyContains (pyUpper s) " SERIAL " = true))) :
    validate_dialect oracle s d q = false := by
  have hb : check_basic_dialect_issues (pyUpper s) d = true := by
    rcases h with ⟨hd, h | h⟩ | ⟨hd, h | h⟩ | ⟨hd, h | h | h | h | h⟩ <;>
      subst hd <;> simp [check_basic_dialect_issues, h]
  simp [validate_dialect, hb]

/-- C2 witness: `SELECT TOP 10 * FROM users` is rejected under MYSQL even
when the oracle is unreachable. -/
theorem validate_rejects_forbidden_patterns_witness :
    (SQLDialect.mysql = SQLDialect.mysql ∧
      (pyContains (pyUpper "SELECT TOP 10 * FROM users") " TOP " = true ∨
       pyContains (pyUpper "SELECT TOP 10 * FROM users") "AUTOINCREMENT" = true)) ∧
    validate_dialect (fun _ => OracleResponse.raises)
      "SELECT TOP 10 * FROM users" SQLDialect.mysql "" = false :=
  ⟨⟨rfl, Or.inl (by decide)⟩,
   validate_rejects_forbidden_patterns _ _ _ _ (Or.inl ⟨rfl, Or.inl (by decide)⟩)⟩

/-- C3 counterexample: `forward` hands back the candidate carrying its own
`dialect_used` (here GENERIC) even though the request asked for MYSQL, so the
request dialect is not forced onto the returned result. -/
theorem forward_dialect_counterexample :
    (forward { query := "find all users", sql_dialect := SQLDialect.mysql }
        (some { sql := "SELECT * FROM users",
                dialect_used := SQLDialect.generic })).dialect_used ≠
      ({ query := "find all users",
         sql_dialect := SQLDialect.mysql } : QueryInput).sql_dialect := by
  decide

/-- C3 (amended): `forward` returns the oracle's candidate unchanged, so the
result carries the request's dialect exactly when the candidate already does;
nothing overwrites `dialect_used` before the result is handed back. -/
theorem forward_dialect_passthrough (input : QueryInput) (r : SQLOutput)
    (h : r.dialect_used = input.sql_dialect) :
    (forward input (some r)).dialect_used = input.sql_dialect := h

/-- C3 witness: a MYSQL request whose candidate already carries MYSQL. -/
theorem forward_dialect_passthrough_witness :
    ({ sql := "SELECT * FROM users",
       dialect_used := SQLDialect.mysql } : SQLOutput).dialect_used =
      ({ query := "find all users",
         sql_dialect := SQLDialect.mysql } : QueryInput).sql_dialect ∧
    (forward { query := "find all users", sql_dialect := SQLDialect.mysql }
        (some { sql := "SELECT * FROM users",
                dialect_used := SQLDialect.mysql })).dialect_used =
      SQLDialect.mysql :=
  ⟨rfl, forward_dialect_passthrough _ _ rfl⟩

/-- C9: on a connected store, `get_table_schema` fails with the
table-not-found error exactly when the metadata query reports no columns for
the name, and otherwise returns the rendered schema text. -/
theorem get_table_schema_spec (db : SQLInterface) (store : Store) (t : String)
    (hconn : db.connection = some store) :
    (get_table_schema db t = Except.error (DBError.tableNotFound t) ↔
      store.tableInfo t = []) ∧
    (store.tableInfo t ≠ [] →
      get_table_schema db t =
        Except.ok ("Table: " ++ t ++ "\n   " ++
          ("Columns: " ++
            String.intercalate ", " ((store.tableInfo t).map formatColumn)))) := by
  simp only [get_table_schema, hconn]
  cases hcols : store.tableInfo t with
  | nil => simp
  | cons c cs => simp

/-- a one-table demonstration store for the schema-description theorems -/
def usersStore : Store :=
  { tableNames := ["users"],
    tableInfo := fun t =>
      if t = "users" then
        [{ name := "id", declType := "INTEGER", notnull := false, pk := true },
         { name := "name", declType := "TEXT", notnull := true, pk := false }]
      else [],
    runQuery := fun _ => Except.error "near X: syntax error" }

/-- a connected interface over the demonstration store -/
def usersDB : SQLInterface :=
  { database_path := "demo.db", connection := some usersStore }

/-- C9 witness: describing the existing `users` table succeeds with the
rendered schema text, applied through the specification theorem. -/
theorem get_table_schema_spec_witness :
    usersDB.connection = some usersStore ∧
    get_table_schema usersDB "users" =
      Except.ok ("Table: " ++ "users" ++ "\n   " ++
        ("Columns: " ++
          String.intercalate ", " ((usersStore.tableInfo "users").map formatColumn))) :=
  ⟨rfl, (get_table_schema_spec usersDB usersStore "users" rfl).2 (by decide)⟩

/-- C10: every data operation of `SQLInterface` fails with the not-connected
error while the connection is unset, and the connection is unset on a fresh
instance (before `connect`) and immediately after `disconnect`. -/
theorem ops_require_connection (db : SQLInterface) (h : db.connection = none) :
    get_table_names db = Except.error DBError.notConnected ∧
    (∀ t, get_table_schema db t = Except.error DBError.notConnected) ∧
    (∀ t, get_columns_info db t = Except.error DBError.notConnected) ∧
    (∀ s, execute_query db s = Except.error DBError.notConnected) ∧
    (∀ p, (SQLInterface.init p).connection = none) ∧
    (∀ db' : SQLInterface, (SQLInterface.disconnect db').connection = none) := by
  refine ⟨?_, fun t => ?_, fun t => ?_, fun s => ?_, fun p => rfl, fun db' => rfl⟩ <;>
    simp [get_table_names, get_table_schema, get_columns_info, execute_query, h]

/-- C10 witness: a freshly initialized interface rejects `get_table_names`. -/
theorem ops_require_connection_witness :
    (SQLInterface.init "demo.db").connection = none ∧
    get_table_names (SQLInterface.init "demo.db") =
      Except.error DBError.notConnected :=
  ⟨rfl, (ops_require_connection (SQLInterface.init "demo.db") rfl).1⟩

end Semantic2SQL
